import Mathlib

/-!
Verification of the news-admission and enrichment pipeline
(gates, 4-step chain executor, score mapper, cost tracker).

The definitions below are a shallow embedding of the Python sources:
  - src/models/enums.py, src/models/schemas.py
  - src/processors/chain_executor.py
  - src/pipeline/cost_tracker.py, src/pipeline/orchestrator.py (run_processing)
  - src/gates/base.py, src/gates/content_quality.py, src/gates/topic_relevance.py
  - src/config/constants.py

Modelling conventions:
  - Python str is String; machine floats used for confidences/costs are
    modelled as exact rationals (the verified properties do not depend on
    float rounding); JSON dict lookups with defaults become Option fields
    read with getD.
  - Pydantic model construction, whose validators can raise, becomes a
    mk? smart constructor returning Except String; a raised exception is
    an Except.error value and chain steps compose in the Except monad.
  - Wall-clock fields (scraped_at, processed_at, checked_at) and the
    derived date partitions are not modelled; per-step elapsed time is an
    input of the step oracle.
  - Python str.lower is modelled for ASCII letters plus the accented
    Spanish uppercase letters; str.strip truthiness tests become an
    all-whitespace test; str.split becomes pyWords.
-/

/-- Python str.lower on one character: ASCII letters plus the accented
Spanish capitals that occur in this code base. -/
def pyLowerChar (c : Char) : Char :=
  if c = 'A' then 'a' else if c = 'B' then 'b' else if c = 'C' then 'c'
  else if c = 'D' then 'd' else if c = 'E' then 'e' else if c = 'F' then 'f'
  else if c = 'G' then 'g' else if c = 'H' then 'h' else if c = 'I' then 'i'
  else if c = 'J' then 'j' else if c = 'K' then 'k' else if c = 'L' then 'l'
  else if c = 'M' then 'm' else if c = 'N' then 'n' else if c = 'O' then 'o'
  else if c = 'P' then 'p' else if c = 'Q' then 'q' else if c = 'R' then 'r'
  else if c = 'S' then 's' else if c = 'T' then 't' else if c = 'U' then 'u'
  else if c = 'V' then 'v' else if c = 'W' then 'w' else if c = 'X' then 'x'
  else if c = 'Y' then 'y' else if c = 'Z' then 'z'
  else if c = 'Á' then 'á' else if c = 'É' then 'é' else if c = 'Í' then 'í'
  else if c = 'Ó' then 'ó' else if c = 'Ú' then 'ú' else if c = 'Ñ' then 'ñ'
  else if c = 'Ü' then 'ü' else c

/-- Python str.lower on a whole string, as a character list. -/
def pyLowerList (l : List Char) : List Char := l.map pyLowerChar

/-- Tests whether the first list is an initial segment of the second
(needle first, haystack second). -/
def leadsList : List Char → List Char → Bool
  | [], _ => true
  | _ :: _, [] => false
  | a :: as, b :: bs => a == b && leadsList as bs

/-- Python substring containment (the in operator on str): does the
needle occur contiguously inside the haystack? -/
def containsSub (haystack needle : List Char) : Bool :=
  match haystack with
  | [] => needle.isEmpty
  | _ :: rest => leadsList needle haystack || containsSub rest needle

/-- Python str.count for a non-empty needle: number of non-overlapping
occurrences, scanning left to right. -/
def countOccurPos (needle : List Char) : List Char → Nat
  | [] => 0
  | c :: rest =>
    if leadsList needle (c :: rest) then
      1 + countOccurPos needle (rest.drop (needle.length - 1))
    else
      countOccurPos needle rest
termination_by l => l.length
decreasing_by
  · simp only [List.length_cons]
    exact Nat.lt_succ_of_le (by simp [List.length_drop])
  · simp

/-- Python str.count, including the empty-needle convention
(s.count of the empty string is length s + 1). -/
def countOccur (needle haystack : List Char) : Nat :=
  if needle.isEmpty then haystack.length + 1 else countOccurPos needle haystack

/-- Python str.split with no argument: maximal runs of non-whitespace
characters, empty runs dropped. -/
def pyWords : List Char → List (List Char)
  | [] => []
  | c :: rest =>
    if c.isWhitespace then
      pyWords rest
    else
      ((c :: rest).takeWhile (fun x => !x.isWhitespace)) ::
        pyWords (rest.dropWhile (fun x => !x.isWhitespace))
termination_by l => l.length
decreasing_by
  · simp
  · simp only [List.length_cons]
    exact Nat.lt_succ_of_le (List.dropWhile_sublist _).length_le

/-- Python str.strip with no argument: leading and trailing whitespace
removed. -/
def pyStrip (s : String) : String :=
  ⟨(((s.data.dropWhile Char.isWhitespace).reverse.dropWhile
      Char.isWhitespace).reverse)⟩

/-- Truthiness of Python s.strip(): isBlank s is true exactly when the
string is empty or all whitespace, i.e. when not s.strip() holds. -/
def isBlank (s : String) : Bool := s.toList.all Char.isWhitespace

-- ============================================================================
-- Enums (src/models/enums.py)
-- ============================================================================

/-- GateResult enum. -/
inductive GateResult where
  | pass
  | fail
deriving DecidableEq, Repr

/-- RankingCategory enum (1-5 scale labels). -/
inductive RankingCategory where
  | irrelevant
  | low
  | moderate
  | high
  | critical
deriving DecidableEq, Repr

/-- ImpactDirection enum. -/
inductive ImpactDirection where
  | positive
  | negative
  | neutral
deriving DecidableEq, Repr

/-- TimeHorizon enum. -/
inductive TimeHorizon where
  | short_term
  | medium_term
  | long_term
deriving DecidableEq, Repr

/-- TopicCategory enum. -/
inductive TopicCategory where
  | economy
  | politics
  | security
  | energy
  | international
  | monetary
  | other
deriving DecidableEq, Repr

/-- TraderAction enum. -/
inductive TraderAction where
  | monitor
  | alert
  | urgent
deriving DecidableEq, Repr

/-- Python ImpactDirection(value): looks a string up among the enum
values; none models the ValueError raised on an unrecognized value. -/
def ImpactDirection.fromString? : String → Option ImpactDirection
  | "POSITIVE" => some .positive
  | "NEGATIVE" => some .negative
  | "NEUTRAL" => some .neutral
  | _ => none

/-- Python TimeHorizon(value). -/
def TimeHorizon.fromString? : String → Option TimeHorizon
  | "short-term" => some .short_term
  | "medium-term" => some .medium_term
  | "long-term" => some .long_term
  | _ => none

/-- Python TopicCategory(value). -/
def TopicCategory.fromString? : String → Option TopicCategory
  | "economy" => some .economy
  | "politics" => some .politics
  | "security" => some .security
  | "energy" => some .energy
  | "international" => some .international
  | "monetary" => some .monetary
  | "other" => some .other
  | _ => none

-- ============================================================================
-- Raw article and chain output schemas (src/models/schemas.py)
-- ============================================================================

/-- RawNews: the fields of the scraped article consumed by the gates and
the chain (identity, URL, title, body). -/
structure RawNews where
  article_id : String
  url : String
  title : String
  content : String
deriving DecidableEq, Repr

/-- SummarizationOutput construction including its pydantic validator:
summary must be non-empty and at least 10 characters after strip, and is
stored stripped. -/
def SummarizationOutputMk (summary cot_reasoning : String) :
    Except String (String × String) :=
  if summary = "" ∨ (pyStrip summary).length < 10 then
    .error "Summary must be at least 10 characters"
  else
    .ok (pyStrip summary, cot_reasoning)

/-- TopicExtractionOutput record. -/
structure TopicExtractionOutput where
  topics : List TopicCategory
  cot_reasoning : String
  confidence : ℚ
deriving DecidableEq, Repr

/-- TopicExtractionOutput construction including its pydantic validators:
topics must be non-empty, confidence must lie in [0,1]. -/
def TopicExtractionOutput.mk? (topics : List TopicCategory)
    (cot_reasoning : String) (confidence : ℚ) :
    Except String TopicExtractionOutput :=
  if topics = [] then
    .error "At least one topic must be extracted"
  else if ¬ (0 ≤ confidence ∧ confidence ≤ 1) then
    .error "Confidence must be between 0.0 and 1.0"
  else
    .ok ⟨topics, cot_reasoning, confidence⟩

/-- ImpactAnalysisOutput record. -/
structure ImpactAnalysisOutput where
  direction : ImpactDirection
  mechanisms : List String
  confidence : ℚ
  time_horizon : TimeHorizon
  cot_reasoning : String
deriving DecidableEq, Repr

/-- ImpactAnalysisOutput construction including its pydantic validators:
mechanisms must be non-empty, confidence must lie in [0,1]. -/
def ImpactAnalysisOutput.mk? (direction : ImpactDirection)
    (mechanisms : List String) (confidence : ℚ) (time_horizon : TimeHorizon)
    (cot_reasoning : String) : Except String ImpactAnalysisOutput :=
  if mechanisms = [] then
    .error "At least one impact mechanism must be identified"
  else if ¬ (0 ≤ confidence ∧ confidence ≤ 1) then
    .error "Confidence must be between 0.0 and 1.0"
  else
    .ok ⟨direction, mechanisms, confidence, time_horizon, cot_reasoning⟩

/-- RankingOutput record. -/
structure RankingOutput where
  score : Int
  category : RankingCategory
  justification : String
  trader_action : TraderAction
  cot_reasoning : String
deriving DecidableEq, Repr

/-- RankingOutput construction including its pydantic validators: score
must lie in [1,5]; justification must be non-empty and at least 20
characters after strip, and is stored stripped. -/
def RankingOutput.mk? (score : Int) (category : RankingCategory)
    (justification : String) (trader_action : TraderAction)
    (cot_reasoning : String) : Except String RankingOutput :=
  if ¬ (1 ≤ score ∧ score ≤ 5) then
    .error "Score must be between 1 and 5"
  else if justification = "" ∨ (pyStrip justification).length < 20 then
    .error "Justification must be at least 20 characters"
  else
    .ok ⟨score, category, pyStrip justification, trader_action, cot_reasoning⟩

-- ============================================================================
-- Chain executor (src/processors/chain_executor.py)
-- ============================================================================

/-- Projection of the JSON object returned by the LLM for step 1; a
missing key is none, read back with the same default as dict.get. -/
structure Resp1 where
  summary : Option String
  reasoning : Option String
deriving DecidableEq, Repr

/-- Projection of the step-2 JSON response. -/
structure Resp2 where
  topics : Option (List String)
  reasoning : Option String
  confidence : Option ℚ
deriving DecidableEq, Repr

/-- Projection of the step-3 JSON response. -/
structure Resp3 where
  direction : Option String
  mechanisms : Option (List String)
  confidence : Option ℚ
  time_horizon : Option String
  reasoning : Option String
deriving DecidableEq, Repr

/-- Projection of the step-4 JSON response; the declared category field
is carried although the code never uses it for the mapping. -/
structure Resp4 where
  score : Option Int
  category : Option String
  justification : Option String
  reasoning : Option String
deriving DecidableEq, Repr

/-- Result of one call_with_json_response invocation: the parsed JSON
payload plus the token counts returned by the client, together with the
elapsed wall-clock time the step measures around the call. -/
structure StepCall (α : Type) where
  resp : α
  input_tokens : Nat
  output_tokens : Nat
  time_ms : Nat
deriving DecidableEq, Repr

/-- Lifts the enum lookup that Python performs with EnumClass(value),
which raises ValueError on an unrecognized value. -/
def enumOrErr {α : Type} (o : Option α) (msg : String) : Except String α :=
  match o with
  | some a => .ok a
  | none => .error msg

/-- ChainExecutor.execute_step_1: builds SummarizationOutput from the
response, defaulting missing keys to the empty string. -/
def execute_step_1 (call : StepCall Resp1) :
    Except String ((String × String) × Nat × Nat × Nat) :=
  match SummarizationOutputMk (call.resp.summary.getD "")
      (call.resp.reasoning.getD "") with
  | .error e => .error e
  | .ok out => .ok (out, call.input_tokens, call.output_tokens, call.time_ms)

/-- ChainExecutor.execute_step_2: parses the topic strings, dropping
unrecognized ones; substitutes the catch-all topic when none survive;
confidence defaults to 0.5. -/
def execute_step_2 (call : StepCall Resp2) :
    Except String (TopicExtractionOutput × Nat × Nat × Nat) :=
  let topic_strings := call.resp.topics.getD []
  let topics := topic_strings.filterMap TopicCategory.fromString?
  match TopicExtractionOutput.mk?
      (if topics = [] then [TopicCategory.other] else topics)
      (call.resp.reasoning.getD "")
      (call.resp.confidence.getD (1/2)) with
  | .error e => .error e
  | .ok out => .ok (out, call.input_tokens, call.output_tokens, call.time_ms)

/-- ChainExecutor.execute_step_3: converts the direction and time-horizon
strings through their enums (raising on unrecognized values), with the
defaults NEUTRAL and medium-term for missing keys. -/
def execute_step_3 (call : StepCall Resp3) :
    Except String (ImpactAnalysisOutput × Nat × Nat × Nat) :=
  match enumOrErr (ImpactDirection.fromString? (call.resp.direction.getD "NEUTRAL"))
      "is not a valid ImpactDirection" with
  | .error e => .error e
  | .ok d =>
    match enumOrErr (TimeHorizon.fromString? (call.resp.time_horizon.getD "medium-term"))
        "is not a valid TimeHorizon" with
    | .error e => .error e
    | .ok th =>
      match ImpactAnalysisOutput.mk? d
          (call.resp.mechanisms.getD [])
          (call.resp.confidence.getD (1/2))
          th
          (call.resp.reasoning.getD "") with
      | .error e => .error e
      | .ok out => .ok (out, call.input_tokens, call.output_tokens, call.time_ms)

/-- Fixed score-to-category table of execute_step_4, including the
dict.get default used for any other score. -/
def score_to_category (score : Int) : RankingCategory :=
  match score with
  | 1 => .irrelevant
  | 2 => .low
  | 3 => .moderate
  | 4 => .high
  | 5 => .critical
  | _ => .moderate

/-- Score-to-action branch of execute_step_4. -/
def score_to_trader_action (score : Int) : TraderAction :=
  if score ≤ 2 then .monitor
  else if score ≤ 4 then .alert
  else .urgent

/-- ChainExecutor.execute_step_4: score defaults to 3, the category and
trader action are recomputed from the score (the declared category
string is read but unused), then RankingOutput is validated. -/
def execute_step_4 (call : StepCall Resp4) :
    Except String (RankingOutput × Nat × Nat × Nat) :=
  let score := call.resp.score.getD 3
  let category := score_to_category score
  let trader_action := score_to_trader_action score
  match RankingOutput.mk? score category
      (call.resp.justification.getD "")
      trader_action
      (call.resp.reasoning.getD "") with
  | .error e => .error e
  | .ok out => .ok (out, call.input_tokens, call.output_tokens, call.time_ms)

/-- ProcessedNews: the finalized record built by execute_full_chain
(wall-clock processed_at and the derived date partition omitted). -/
structure ProcessedNews where
  article_id : String
  chain_step : Nat
  input_tokens : Nat
  output_tokens : Nat
  processing_time_ms : Nat
  summary : String
  summary_cot : String
  topics : List TopicCategory
  topics_cot : String
  topics_confidence : ℚ
  impact_direction : ImpactDirection
  impact_mechanisms : List String
  impact_confidence : ℚ
  impact_time_horizon : TimeHorizon
  impact_cot : String
  ranking_score : Int
  ranking_category : RankingCategory
  ranking_justification : String
  ranking_trader_action : TraderAction
  ranking_cot : String
deriving DecidableEq, Repr

/-- Per-1M-token input price (src/config/constants.py). -/
def ANTHROPIC_INPUT_COST_PER_1M : ℚ := 3

/-- Per-1M-token output price (src/config/constants.py). -/
def ANTHROPIC_OUTPUT_COST_PER_1M : ℚ := 15

/-- ProcessedNews.cost_usd property. -/
def ProcessedNews.cost_usd (p : ProcessedNews) : ℚ :=
  (p.input_tokens : ℚ) / 1000000 * ANTHROPIC_INPUT_COST_PER_1M +
    (p.output_tokens : ℚ) / 1000000 * ANTHROPIC_OUTPUT_COST_PER_1M

/-- One LLM response per chain step: everything the external
text-generation collaborator contributes to one article's chain. -/
structure ChainOracle where
  step1 : StepCall Resp1
  step2 : StepCall Resp2
  step3 : StepCall Resp3
  step4 : StepCall Resp4
deriving DecidableEq, Repr

/-- ChainExecutor.execute_full_chain: runs the four steps in order,
accumulating token counts and elapsed time; the first step failure
propagates and no ProcessedNews is produced. The market context only
feeds the step-3 prompt, so it does not influence the outputs here. -/
def execute_full_chain (article : RawNews) (market_context : String)
    (oracle : ChainOracle) : Except String ProcessedNews :=
  let _ := market_context
  match execute_step_1 oracle.step1 with
  | .error e => .error e
  | .ok (summary_output, in1, out1, t1) =>
  match execute_step_2 oracle.step2 with
  | .error e => .error e
  | .ok (topic_output, in2, out2, t2) =>
  match execute_step_3 oracle.step3 with
  | .error e => .error e
  | .ok (impact_output, in3, out3, t3) =>
  match execute_step_4 oracle.step4 with
  | .error e => .error e
  | .ok (ranking_output, in4, out4, t4) =>
  let total_input_tokens := in1 + in2 + in3 + in4
  let total_output_tokens := out1 + out2 + out3 + out4
  let total_processing_time_ms := t1 + t2 + t3 + t4
  .ok {
    article_id := article.article_id
    chain_step := 4
    input_tokens := total_input_tokens
    output_tokens := total_output_tokens
    processing_time_ms := total_processing_time_ms
    summary := summary_output.1
    summary_cot := summary_output.2
    topics := topic_output.topics
    topics_cot := topic_output.cot_reasoning
    topics_confidence := topic_output.confidence
    impact_direction := impact_output.direction
    impact_mechanisms := impact_output.mechanisms
    impact_confidence := impact_output.confidence
    impact_time_horizon := impact_output.time_horizon
    impact_cot := impact_output.cot_reasoning
    ranking_score := ranking_output.score
    ranking_category := ranking_output.category
    ranking_justification := ranking_output.justification
    ranking_trader_action := ranking_output.trader_action
    ranking_cot := ranking_output.cot_reasoning }

-- ============================================================================
-- Cost tracker (src/pipeline/cost_tracker.py)
-- ============================================================================

/-- One entry of CostTracker.article_costs. -/
structure CostRecord where
  article_id : String
  input_tokens : Nat
  output_tokens : Nat
  total_tokens : Nat
  cost_usd : ℚ
  ranking_score : Int
  processing_time_ms : Nat
deriving DecidableEq, Repr

/-- CostTracker state: the running accumulators and per-article ledger. -/
structure CostTracker where
  total_input_tokens : Nat
  total_output_tokens : Nat
  total_cost_usd : ℚ
  article_costs : List CostRecord
deriving DecidableEq, Repr

/-- CostTracker.__init__. -/
def CostTracker.init : CostTracker :=
  { total_input_tokens := 0
    total_output_tokens := 0
    total_cost_usd := 0
    article_costs := [] }

/-- CostTracker.add_processed_article. -/
def CostTracker.add_processed_article (ct : CostTracker) (p : ProcessedNews) :
    CostTracker :=
  { total_input_tokens := ct.total_input_tokens + p.input_tokens
    total_output_tokens := ct.total_output_tokens + p.output_tokens
    total_cost_usd := ct.total_cost_usd + p.cost_usd
    article_costs := ct.article_costs ++
      [{ article_id := p.article_id
         input_tokens := p.input_tokens
         output_tokens := p.output_tokens
         total_tokens := p.input_tokens + p.output_tokens
         cost_usd := p.cost_usd
         ranking_score := p.ranking_score
         processing_time_ms := p.processing_time_ms }] }

/-- CostTracker.get_total_tokens. -/
def CostTracker.get_total_tokens (ct : CostTracker) : Nat :=
  ct.total_input_tokens + ct.total_output_tokens

/-- CostTracker.get_average_cost_per_article (guarded division). -/
def CostTracker.get_average_cost_per_article (ct : CostTracker) : ℚ :=
  if ct.article_costs = [] then 0
  else ct.total_cost_usd / ct.article_costs.length

/-- CostTracker.get_average_tokens_per_article (guarded division). -/
def CostTracker.get_average_tokens_per_article (ct : CostTracker) : ℚ :=
  if ct.article_costs = [] then 0
  else (ct.get_total_tokens : ℚ) / ct.article_costs.length

/-- CostReport dataclass; the field defaults are the zero values used by
the empty report. -/
structure CostReport where
  date : String
  total_articles : Nat := 0
  total_input_tokens : Nat := 0
  total_output_tokens : Nat := 0
  total_tokens : Nat := 0
  total_cost_usd : ℚ := 0
  avg_tokens_per_article : ℚ := 0
  avg_cost_per_article : ℚ := 0
  min_cost_article : ℚ := 0
  max_cost_article : ℚ := 0
  processing_time_ms : Nat := 0
  cost_breakdown : List CostRecord := []
deriving DecidableEq, Repr

/-- Python min over a non-empty list, via folding from the head. -/
def pyMin (h : ℚ) (t : List ℚ) : ℚ := t.foldl min h

/-- Python max over a non-empty list, via folding from the head. -/
def pyMax (h : ℚ) (t : List ℚ) : ℚ := t.foldl max h

/-- CostTracker.generate_report: early return of the all-zero report when
no article has been recorded, full aggregation otherwise. -/
def CostTracker.generate_report (ct : CostTracker) (date : String) : CostReport :=
  match ct.article_costs with
  | [] => { date := date }
  | c :: cs =>
    let total_processing_time := ((c :: cs).map CostRecord.processing_time_ms).sum
    { date := date
      total_articles := ct.article_costs.length
      total_input_tokens := ct.total_input_tokens
      total_output_tokens := ct.total_output_tokens
      total_tokens := ct.get_total_tokens
      total_cost_usd := ct.total_cost_usd
      avg_tokens_per_article := ct.get_average_tokens_per_article
      avg_cost_per_article := ct.get_average_cost_per_article
      min_cost_article := pyMin (c.cost_usd) (cs.map CostRecord.cost_usd)
      max_cost_article := pyMax (c.cost_usd) (cs.map CostRecord.cost_usd)
      processing_time_ms := total_processing_time
      cost_breakdown := ct.article_costs }

/-- CostTracker.check_cost_threshold. -/
def CostTracker.check_cost_threshold (ct : CostTracker) (threshold_usd : ℚ) :
    Bool :=
  ct.total_cost_usd > threshold_usd

-- ============================================================================
-- Orchestrator processing loop (src/pipeline/orchestrator.py)
-- ============================================================================

/-- PipelineOrchestrator.run_processing: per-article loop over the
admitted articles (each paired with the responses its chain will
receive); a successful chain appends to the tracker and to the output
list, a failed chain is caught, leaves both untouched, and the loop
continues with the next article. -/
def run_processing (market_context : String) :
    List (RawNews × ChainOracle) → CostTracker →
    List ProcessedNews × CostTracker
  | [], ct => ([], ct)
  | (article, oracle) :: rest, ct =>
    match execute_full_chain article market_context oracle with
    | .ok processed =>
      let (ps, ct') := run_processing market_context rest
        (ct.add_processed_article processed)
      (processed :: ps, ct')
    | .error _ => run_processing market_context rest ct

-- ============================================================================
-- Gate pipeline (src/gates/base.py)
-- ============================================================================

/-- GateCheckResult (wall-clock checked_at and date partition omitted). -/
structure GateCheckResult where
  article_id : String
  gate_name : String
  gate_result : GateResult
  gate_reason : String
deriving DecidableEq, Repr

/-- GateCheckResult.passed property. -/
def GateCheckResult.passed (r : GateCheckResult) : Bool :=
  r.gate_result == GateResult.pass

/-- Gate protocol: a named check from article to result. -/
structure Gate where
  name : String
  check : RawNews → GateCheckResult

/-- BaseGate._create_result. -/
def create_result (gate_name : String) (article : RawNews) (passed : Bool)
    (reason : String) : GateCheckResult :=
  { article_id := article.article_id
    gate_name := gate_name
    gate_result := if passed then GateResult.pass else GateResult.fail
    gate_reason := reason }

/-- GatePipeline.run: fail-fast evaluation; results accumulate in gate
order and evaluation returns at the first failing gate. -/
def GatePipeline.run (gates : List Gate) (article : RawNews) :
    Bool × List GateCheckResult :=
  match gates with
  | [] => (true, [])
  | g :: gs =>
    let r := g.check article
    if r.passed then
      let (p, rs) := GatePipeline.run gs article
      (p, r :: rs)
    else
      (false, [r])

/-- GatePipeline.run_all_gates: exhaustive evaluation; every gate runs
and all_passed records whether any failed. -/
def GatePipeline.run_all_gates (gates : List Gate) (article : RawNews) :
    Bool × List GateCheckResult :=
  match gates with
  | [] => (true, [])
  | g :: gs =>
    let r := g.check article
    let (p, rs) := GatePipeline.run_all_gates gs article
    (r.passed && p, r :: rs)

-- ============================================================================
-- Gate constants (src/config/constants.py)
-- ============================================================================

/-- Minimum article content length in characters. -/
def MIN_CONTENT_LENGTH : Nat := 200

/-- Maximum article content length in characters. -/
def MAX_CONTENT_LENGTH : Nat := 50000

/-- Minimum Spanish language fraction (REQUIRED_SPANISH_RATIO in the
source, 0.3). -/
def REQUIRED_SPANISH_MIN : ℚ := 3/10

/-- Minimum keyword matches for the relevance gate. -/
def MIN_KEYWORD_MATCHES : Nat := 2

/-- TOPIC_KEYWORDS flattened across categories in dict insertion order
(economy, politics, security, energy, international, monetary), i.e.
ALL_RELEVANT_KEYWORDS. Note the entry "exportación" appears twice: once
under economy and once under international. -/
def ALL_RELEVANT_KEYWORDS : List String :=
  [ "economía", "económico", "dólar", "peso", "inflación", "banco",
    "comercio", "inversión", "pib", "crecimiento", "fiscal", "tributaria",
    "empleo", "desempleo", "salario", "importación", "exportación",
    "deuda", "déficit", "superávit", "mercado", "bolsa", "acciones",
    "gobierno", "petro", "congreso", "reforma", "ley", "ministro",
    "presidente", "política", "elecciones", "votación", "senado",
    "cámara", "decreto", "acuerdo", "negociación", "coalición",
    "conflicto", "farc", "eln", "seguridad", "violencia", "militar",
    "policía", "guerrilla", "disidencia", "ataque", "atentado",
    "secuestro", "narcotráfico", "droga", "paz", "acuerdo de paz",
    "petróleo", "ecopetrol", "energía", "carbón", "gas", "crudo",
    "barril", "exploración", "producción", "refinería", "oleoducto",
    "fracking", "yacimiento", "reservas", "opep", "wti", "brent",
    "venezuela", "ecuador", "brasil", "estados unidos", "china",
    "exportación", "tratado", "acuerdo comercial", "otan", "onu",
    "frontera", "migración", "diplomacia", "embajada", "trump",
    "banco de la república", "banrep", "tasa de interés", "política monetaria",
    "emisión", "reservas internacionales", "tipo de cambio", "devaluación",
    "revaluación", "intervención cambiaria", "junta directiva" ]

-- ============================================================================
-- Content quality gate (src/gates/content_quality.py)
-- ============================================================================

/-- Spanish indicator substrings used by the language heuristic. -/
def spanish_indicators : List String :=
  [ "el ", "la ", "los ", "las ", "de ", "del ", "en ", "y ",
    "que ", "es ", "un ", "una ", "por ", "para ", "con ",
    "gobierno", "presidente", "país", "economía", "colombia",
    "ación", "ción", "dad", "mente", "año", "más", "según" ]

/-- ContentQualityGate._detect_spanish_ratio: total indicator occurrence
count over the word count, zero when there are no words, capped at 1. -/
def detect_spanish (text : String) : ℚ :=
  let text_lower := pyLowerList text.toList
  let spanish_count :=
    (spanish_indicators.map (fun ind => countOccur ind.toList text_lower)).sum
  let words := pyWords text_lower
  if words.length = 0 then 0
  else min ((spanish_count : ℚ) / words.length) 1

/-- ContentQualityGate.check: ordered checks for length bounds, language
fraction, non-blank title, non-blank content. Numeric formatting inside
the reason strings is simplified (toString in place of the f-string
formats); the reason texts themselves are those of the source. -/
def ContentQualityGate.check (article : RawNews) : GateCheckResult :=
  let content_length := article.content.length
  if content_length < MIN_CONTENT_LENGTH then
    create_result "content_quality" article false
      ("Content too short: " ++ (toString content_length ++ (" < " ++
        (toString MIN_CONTENT_LENGTH ++ " chars"))))
  else if content_length > MAX_CONTENT_LENGTH then
    create_result "content_quality" article false
      ("Content too long: " ++ (toString content_length ++ (" > " ++
        (toString MAX_CONTENT_LENGTH ++ " chars"))))
  else
    let spanishFrac := detect_spanish article.content
    if spanishFrac < REQUIRED_SPANISH_MIN then
      create_result "content_quality" article false
        ("Spanish ratio too low: " ++ (toString spanishFrac ++ (" < " ++
          toString REQUIRED_SPANISH_MIN)))
    else if isBlank article.title then
      create_result "content_quality" article false "Missing title"
    else if isBlank article.content then
      create_result "content_quality" article false "Missing content"
    else
      create_result "content_quality" article true
        ("Quality checks passed (length: " ++ (toString content_length ++
          (", spanish: " ++ (toString spanishFrac ++ ")"))))

-- ============================================================================
-- Topic relevance gate (src/gates/topic_relevance.py)
-- ============================================================================

/-- TopicRelevanceGate._count_keyword_matches: lowercases the text and
collects every entry of the flattened keyword list that occurs in it as
a substring (one hit per list entry, duplicates included). -/
def count_keyword_matches (text : String) : Nat × List String :=
  let text_lower := pyLowerList text.toList
  let matched := ALL_RELEVANT_KEYWORDS.filter
    (fun k => containsSub text_lower k.toList)
  (matched.length, matched)

/-- TopicRelevanceGate.check: title and content joined by a space, then
the keyword count compared against the minimum. -/
def TopicRelevanceGate.check (article : RawNews) : GateCheckResult :=
  let full_text := article.title ++ " " ++ article.content
  let mc := count_keyword_matches full_text
  if mc.1 < MIN_KEYWORD_MATCHES then
    create_result "topic_relevance" article false
      ("Insufficient keyword matches: " ++ (toString mc.1 ++ (" < " ++
        toString MIN_KEYWORD_MATCHES)))
  else
    create_result "topic_relevance" article true
      ("Found " ++ (toString mc.1 ++ (" relevant keywords (e.g., " ++
        (String.intercalate ", " (mc.2.take 5) ++ ")"))))

-- ============================================================================
-- Shared helper lemmas
-- ============================================================================

/-- Category table exactly as the spec words it: defined only on 1..5. -/
def spec_category_table : Int → Option RankingCategory
  | 1 => some .irrelevant
  | 2 => some .low
  | 3 => some .moderate
  | 4 => some .high
  | 5 => some .critical
  | _ => none

/-- Action table exactly as the spec words it: defined only on 1..5. -/
def spec_action_table : Int → Option TraderAction
  | 1 => some .monitor
  | 2 => some .monitor
  | 3 => some .alert
  | 4 => some .alert
  | 5 => some .urgent
  | _ => none

/-- Shape of a successful step 4: the returned ranking carries the
defaulted score together with the category and action recomputed from
it. -/
lemma execute_step_4_ok (call : StepCall Resp4) (r : RankingOutput)
    (t : Nat × Nat × Nat) (h : execute_step_4 call = .ok (r, t)) :
    r.score = call.resp.score.getD 3 ∧
      r.category = score_to_category (call.resp.score.getD 3) ∧
      r.trader_action = score_to_trader_action (call.resp.score.getD 3) ∧
      (1 ≤ call.resp.score.getD 3 ∧ call.resp.score.getD 3 ≤ 5) := by
  simp only [execute_step_4] at h
  split at h
  · cases h
  · rename_i out heq
    simp only [Except.ok.injEq, Prod.mk.injEq] at h
    obtain ⟨hr, -⟩ := h
    subst hr
    unfold RankingOutput.mk? at heq
    split_ifs at heq with hs hj
    cases heq
    exact ⟨rfl, rfl, rfl, hs⟩

/-- Shape of a successful full chain: every step succeeded and the
record's fields are those of the step outputs. -/
lemma execute_full_chain_ok (article : RawNews) (ctx : String)
    (oracle : ChainOracle) (p : ProcessedNews)
    (h : execute_full_chain article ctx oracle = .ok p) :
    ∃ s1 t1 o2 t2 o3 t3 o4 t4,
      execute_step_1 oracle.step1 = .ok (s1, t1) ∧
      execute_step_2 oracle.step2 = .ok (o2, t2) ∧
      execute_step_3 oracle.step3 = .ok (o3, t3) ∧
      execute_step_4 oracle.step4 = .ok (o4, t4) ∧
      p.impact_direction = o3.direction ∧
      p.ranking_score = o4.score ∧
      p.ranking_category = o4.category ∧
      p.ranking_trader_action = o4.trader_action := by
  unfold execute_full_chain at h
  split at h
  · cases h
  · split at h
    · cases h
    · split at h
      · cases h
      · split at h
        · cases h
        · simp only [Except.ok.injEq] at h
          subst h
          exact ⟨_, _, _, _, _, _, _, _, by assumption, by assumption,
            by assumption, by assumption, rfl, rfl, rfl, rfl⟩

/-- Exhaustive gate evaluation produces one result per gate. -/
lemma run_all_gates_length (gates : List Gate) (article : RawNews) :
    (GatePipeline.run_all_gates gates article).2.length = gates.length := by
  induction gates with
  | nil => rfl
  | cons g gs ih =>
    simp only [GatePipeline.run_all_gates, List.length_cons]
    rw [← ih]

-- ============================================================================
-- Concrete inputs used by witnesses and counterexamples
-- ============================================================================

/-- Valid step-1 response (summary of at least 10 characters). -/
def good_step1 : StepCall Resp1 :=
  ⟨⟨some "Resumen suficientemente largo de la noticia.", some "razones"⟩, 10, 20, 5⟩

/-- Valid step-2 response (recognized topics, confidence in range). -/
def good_step2 : StepCall Resp2 :=
  ⟨⟨some ["economy", "energy"], some "razones", some 1⟩, 11, 21, 6⟩

/-- Valid step-3 response. -/
def good_step3 : StepCall Resp3 :=
  ⟨⟨some "NEGATIVE", some ["precio del crudo"], some 1, some "short-term",
    some "razones"⟩, 12, 22, 7⟩

/-- Valid step-4 response (score 5, justification over 20 characters). -/
def good_step4 : StepCall Resp4 :=
  ⟨⟨some 5, some "Critical", some "Justificacion con longitud suficiente para validar.",
    some "razones"⟩, 13, 23, 8⟩

/-- Sample admitted article. -/
def sample_article : RawNews :=
  ⟨"id-1", "http://example.org/a", "Titular de la noticia", "Cuerpo de la noticia"⟩

-- ============================================================================
-- C2
-- ============================================================================

/-- C2: when the stage-4 response declares an integer score s in [1,5],
any ranking returned by execute_step_4 has its category equal to the
fixed table applied to s and its trader action equal to the fixed action
table applied to s, regardless of the free-text category the response
declares. -/
theorem C2_score_determines_category_and_action
    (call : StepCall Resp4) (s : Int) (r : RankingOutput) (t : Nat × Nat × Nat)
    (hs : call.resp.score = some s) (h1 : 1 ≤ s) (h5 : s ≤ 5)
    (hok : execute_step_4 call = .ok (r, t)) :
    spec_category_table s = some r.category ∧
      spec_action_table s = some r.trader_action := by
  obtain ⟨-, hcat, hact, -⟩ := execute_step_4_ok call r t hok
  rw [hs, Option.getD_some] at hcat hact
  rw [hcat, hact]
  constructor <;> (interval_cases s <;> rfl)

/-- Step-4 response declaring score 4 with the disagreeing free-text
category "Low". -/
def c2_call : StepCall Resp4 :=
  ⟨⟨some 4, some "Low", some "Justificacion con longitud suficiente para validar.",
    some "razones"⟩, 1, 2, 3⟩

/-- Witness for C2 at score 4 ("High"/alert), with the response
declaring the disagreeing free-text category "Low". -/
theorem C2_score_determines_category_and_action_witness :
    ∃ r t,
      execute_step_4 c2_call = .ok (r, t) ∧
        spec_category_table 4 = some r.category ∧
        spec_action_table 4 = some r.trader_action := by
  have hok : execute_step_4 c2_call =
      .ok (⟨4, .high, "Justificacion con longitud suficiente para validar.",
        .alert, "razones"⟩, (1, 2, 3)) := by rfl
  exact ⟨_, _, hok,
    C2_score_determines_category_and_action c2_call 4 _ _ rfl (by decide)
      (by decide) hok⟩

-- ============================================================================
-- C3
-- ============================================================================

/-- C3: a stage-4 response declaring a score outside [1,5] is rejected
by validation: execute_step_4 returns an error, so no category or
trader action derived from the out-of-range score is emitted, and the
full chain for the article aborts with an error. -/
theorem C3_out_of_range_score_aborts
    (call : StepCall Resp4) (s : Int)
    (hs : call.resp.score = some s) (hout : s < 1 ∨ 5 < s) :
    (∃ e, execute_step_4 call = .error e) ∧
      ∀ (article : RawNews) (ctx : String) (oracle : ChainOracle),
        oracle.step4 = call →
        ∃ e, execute_full_chain article ctx oracle = .error e := by
  have hcond : ¬ (1 ≤ call.resp.score.getD 3 ∧ call.resp.score.getD 3 ≤ 5) := by
    rw [hs, Option.getD_some]
    omega
  have hstep : execute_step_4 call = .error "Score must be between 1 and 5" := by
    simp only [execute_step_4, RankingOutput.mk?]
    rw [if_pos hcond]
  refine ⟨⟨_, hstep⟩, ?_⟩
  intro article ctx oracle h4
  cases h1 : execute_step_1 oracle.step1 with
  | error e => exact ⟨e, by simp only [execute_full_chain, h1]⟩
  | ok v1 =>
    obtain ⟨a1, i1, o1, u1⟩ := v1
    cases h2 : execute_step_2 oracle.step2 with
    | error e => exact ⟨e, by simp only [execute_full_chain, h1, h2]⟩
    | ok v2 =>
      obtain ⟨a2, i2, o2, u2⟩ := v2
      cases h3 : execute_step_3 oracle.step3 with
      | error e => exact ⟨e, by simp only [execute_full_chain, h1, h2, h3]⟩
      | ok v3 =>
        obtain ⟨a3, i3, o3, u3⟩ := v3
        refine ⟨"Score must be between 1 and 5", ?_⟩
        simp only [execute_full_chain, h1, h2, h3, h4, hstep]

/-- Witness for C3 at the out-of-range declared score 7. -/
theorem C3_out_of_range_score_aborts_witness :
    (∃ e, execute_step_4 (⟨⟨some 7, none,
        some "Justificacion con longitud suficiente para validar.", none⟩,
        1, 2, 3⟩ : StepCall Resp4) = .error e) ∧
      ∃ e, execute_full_chain sample_article "ctx"
        ⟨good_step1, good_step2, good_step3,
          ⟨⟨some 7, none,
            some "Justificacion con longitud suficiente para validar.", none⟩,
            1, 2, 3⟩⟩ = .error e := by
  have h := C3_out_of_range_score_aborts
    (⟨⟨some 7, none, some "Justificacion con longitud suficiente para validar.",
      none⟩, 1, 2, 3⟩ : StepCall Resp4) 7 rfl (by decide)
  exact ⟨h.1, h.2 sample_article "ctx" _ rfl⟩

-- ============================================================================
-- C8
-- ============================================================================

/-- C8: when the per-article ledger is empty, generate_report returns
the all-zero report regardless of the accumulator fields, and the
function is total (no division or empty-min error). -/
theorem C8_empty_ledger_zero_report (ct : CostTracker) (date : String)
    (h : ct.article_costs = []) :
    ct.generate_report date =
      { date := date, total_articles := 0, total_input_tokens := 0,
        total_output_tokens := 0, total_tokens := 0, total_cost_usd := 0,
        avg_tokens_per_article := 0, avg_cost_per_article := 0,
        min_cost_article := 0, max_cost_article := 0,
        processing_time_ms := 0, cost_breakdown := [] } := by
  unfold CostTracker.generate_report
  rw [h]

/-- Witness for C8 on a freshly initialized tracker. -/
theorem C8_empty_ledger_zero_report_witness :
    CostTracker.init.generate_report "2026-10-12" =
      { date := "2026-10-12", total_articles := 0, total_input_tokens := 0,
        total_output_tokens := 0, total_tokens := 0, total_cost_usd := 0,
        avg_tokens_per_article := 0, avg_cost_per_article := 0,
        min_cost_article := 0, max_cost_article := 0,
        processing_time_ms := 0, cost_breakdown := [] } :=
  C8_empty_ledger_zero_report CostTracker.init "2026-10-12" rfl

-- ============================================================================
-- C5 and C9 (gate pipeline)
-- ============================================================================

/-- C5: when an article passes the first k-1 gates and fails the k-th,
the fail-fast run returns passed = false with exactly k results (gates
after the k-th are not invoked), while the exhaustive run returns one
result per configured gate. -/
theorem C5_fail_fast_truncates_at_failure
    (pre post : List Gate) (g : Gate) (article : RawNews)
    (hpre : ∀ g' ∈ pre, (g'.check article).passed = true)
    (hg : (g.check article).passed = false) :
    (GatePipeline.run (pre ++ g :: post) article).1 = false ∧
      (GatePipeline.run (pre ++ g :: post) article).2.length = pre.length + 1 ∧
      (GatePipeline.run_all_gates (pre ++ g :: post) article).2.length =
        pre.length + 1 + post.length := by
  have key : ∀ (l : List Gate), (∀ g' ∈ l, (g'.check article).passed = true) →
      GatePipeline.run (l ++ g :: post) article =
        (false, l.map (fun g' => g'.check article) ++ [g.check article]) := by
    intro l hl
    induction l with
    | nil => simp [GatePipeline.run, hg]
    | cons q qs ih =>
      have hq : (q.check article).passed = true := hl q (List.mem_cons_self q qs)
      have ih2 := ih (fun g' hm => hl g' (List.mem_cons_of_mem q hm))
      simp [GatePipeline.run, hq, ih2]
  refine ⟨by rw [key pre hpre], by rw [key pre hpre]; simp, ?_⟩
  rw [run_all_gates_length]
  simp only [List.length_append, List.length_cons]
  omega

/-- C9: on every article, the fail-fast run and the exhaustive run agree
on the overall verdict, and the fail-fast result list is an initial
segment of the exhaustive result list. -/
theorem C9_fail_fast_refines_exhaustive (gates : List Gate) (article : RawNews) :
    (GatePipeline.run gates article).1 =
        (GatePipeline.run_all_gates gates article).1 ∧
      ∃ rest, (GatePipeline.run_all_gates gates article).2 =
        (GatePipeline.run gates article).2 ++ rest := by
  induction gates with
  | nil => exact ⟨rfl, [], rfl⟩
  | cons q qs ih =>
    obtain ⟨ih1, rest, ih2⟩ := ih
    by_cases hq : (q.check article).passed
    · refine ⟨?_, rest, ?_⟩
      · simp [GatePipeline.run, GatePipeline.run_all_gates, hq, ih1]
      · simp [GatePipeline.run, GatePipeline.run_all_gates, hq, ih2]
    · have hqf : (q.check article).passed = false := by
        simpa using hq
      refine ⟨?_, (GatePipeline.run_all_gates qs article).2, ?_⟩
      · simp [GatePipeline.run, GatePipeline.run_all_gates, hqf]
      · simp [GatePipeline.run, GatePipeline.run_all_gates, hqf]

-- ============================================================================
-- C4
-- ============================================================================

/-- C4: a chain failure is atomic for its article: the processing loop
emits no record for it, leaves the cost tracker exactly as it was, and
continues with the remaining articles. -/
theorem C4_chain_failure_atomic (article : RawNews) (ctx : String)
    (oracle : ChainOracle) (e : String)
    (rest : List (RawNews × ChainOracle)) (ct : CostTracker)
    (h : execute_full_chain article ctx oracle = .error e) :
    run_processing ctx ((article, oracle) :: rest) ct =
      run_processing ctx rest ct := by
  simp only [run_processing, h]

/-- Oracle whose stage-2 response carries an out-of-range confidence, so
stage 2 raises a ValidationError. -/
def c4_oracle : ChainOracle :=
  ⟨good_step1, ⟨⟨some ["economy"], some "razones", some 2⟩, 11, 21, 6⟩,
    good_step3, good_step4⟩

/-- Witness for C4: an article whose stage 2 fails validation leaves the
fresh tracker untouched. -/
theorem C4_chain_failure_atomic_witness :
    run_processing "ctx" [(sample_article, c4_oracle)] CostTracker.init =
      run_processing "ctx" [] CostTracker.init :=
  C4_chain_failure_atomic sample_article "ctx" c4_oracle
    "Confidence must be between 0.0 and 1.0" [] CostTracker.init (by rfl)

/-- Gate that passes every article. -/
def pass_gate : Gate :=
  ⟨"always_ok", fun a => create_result "always_ok" a true "ok"⟩

/-- Gate that fails every article. -/
def fail_gate : Gate :=
  ⟨"always_no", fun a => create_result "always_no" a false "no"⟩

/-- Witness for C5 with one passing gate before the failing gate and one
gate after it: the fail-fast run yields 2 results, the exhaustive run 3. -/
theorem C5_fail_fast_truncates_at_failure_witness :
    (GatePipeline.run ([pass_gate] ++ fail_gate :: [pass_gate])
        sample_article).1 = false ∧
      (GatePipeline.run ([pass_gate] ++ fail_gate :: [pass_gate])
        sample_article).2.length = [pass_gate].length + 1 ∧
      (GatePipeline.run_all_gates ([pass_gate] ++ fail_gate :: [pass_gate])
        sample_article).2.length = [pass_gate].length + 1 + [pass_gate].length :=
  C5_fail_fast_truncates_at_failure [pass_gate] [pass_gate] fail_gate
    sample_article
    (by
      intro g' hm
      simp only [List.mem_singleton] at hm
      subst hm
      rfl)
    rfl

-- ============================================================================
-- C10
-- ============================================================================

/-- Lowercasing preserves whitespace characters. -/
lemma pyLowerChar_ws (c : Char) (h : c.isWhitespace = true) :
    pyLowerChar c = c := by
  simp only [Char.isWhitespace, Bool.or_eq_true, decide_eq_true_eq] at h
  rcases h with ((h | h) | h) | h <;> subst h <;> decide

/-- An all-whitespace character list splits into no words. -/
lemma pyWords_nil_of_all_ws (l : List Char)
    (h : ∀ c ∈ l, c.isWhitespace = true) : pyWords l = [] := by
  induction l with
  | nil => simp [pyWords]
  | cons c rest ih =>
    rw [pyWords]
    rw [if_pos (h c (List.mem_cons_self c rest))]
    exact ih (fun x hx => h x (List.mem_cons_of_mem c hx))

/-- Blank content has language fraction zero. -/
lemma detect_spanish_blank (s : String) (h : isBlank s = true) :
    detect_spanish s = 0 := by
  have hws : ∀ c ∈ pyLowerList s.toList, c.isWhitespace = true := by
    intro c hc
    simp only [pyLowerList, List.mem_map] at hc
    obtain ⟨a, ha, rfl⟩ := hc
    have haws : a.isWhitespace = true := by
      have hall := List.all_eq_true.mp h
      exact hall a ha
    rw [pyLowerChar_ws a haws]
    exact haws
  simp only [detect_spanish]
  rw [pyWords_nil_of_all_ws _ hws]
  simp

/-- Strings starting with a character other than capital M differ from
the literal "Missing content". -/
lemma append_ne_missing_content (p s : String) (c : Char) (t : List Char)
    (hp : p.data = c :: t) (hc : c ≠ 'M') : p ++ s ≠ "Missing content" := by
  intro h
  have h2 := congrArg String.data h
  rw [String.data_append, hp, List.cons_append] at h2
  rw [show ("Missing content").data = 'M' :: ("issing content").data from rfl]
    at h2
  exact hc (List.head_eq_of_cons_eq h2)

/-- Reason projection of a freshly created gate result. -/
lemma create_result_reason (n : String) (a : RawNews) (p : Bool)
    (reason : String) : (create_result n a p reason).gate_reason = reason := rfl

/-- C10: the content-quality gate can never fail with the reason
"Missing content": content that reaches the final check has passed the
language-fraction check, so it contains a non-whitespace character. -/
theorem C10_missing_content_unreachable (article : RawNews) :
    (ContentQualityGate.check article).gate_reason ≠ "Missing content" := by
  simp only [ContentQualityGate.check]
  split_ifs with h1 h2 h3 h4 h5 <;> rw [create_result_reason]
  · exact append_ne_missing_content _ _ 'C' _ rfl (by decide)
  · exact append_ne_missing_content _ _ 'C' _ rfl (by decide)
  · exact append_ne_missing_content _ _ 'S' _ rfl (by decide)
  · decide
  · exfalso
    have h0 := detect_spanish_blank article.content h5
    rw [h0] at h3
    exact h3 (by norm_num [REQUIRED_SPANISH_MIN])
  · exact append_ne_missing_content _ _ 'Q' _ rfl (by decide)

-- ============================================================================
-- C6
-- ============================================================================

set_option maxRecDepth 100000

/-- Passed projection of a freshly created gate result. -/
lemma create_result_passed (n : String) (a : RawNews) (p : Bool) (r : String) :
    (create_result n a p r).passed = p := by cases p <;> rfl

/-- Article whose text contains exactly one distinct lexicon keyword,
namely the duplicated entry. -/
def c6_article : RawNews := ⟨"id-6", "http://example.org/b", "", "exportación"⟩

/-- Article whose text contains exactly one distinct lexicon keyword,
one that appears only once in the flattened list. -/
def c6_article_gob : RawNews := ⟨"id-7", "http://example.org/c", "", "gobierno"⟩

/-- C6 counterexample: this article's text contains exactly one distinct
lexicon keyword ("exportación"), yet the topic-relevance gate passes,
because that keyword appears twice in the flattened keyword list. -/
theorem C6_distinct_keyword_counterexample :
    ((count_keyword_matches (c6_article.title ++ " " ++
        c6_article.content)).2).dedup = ["exportación"] ∧
      (TopicRelevanceGate.check c6_article).passed = true := by
  constructor
  · decide
  · decide

/-- C6 (amended): the gate passes iff at least MIN_KEYWORD_MATCHES
entries of the flattened keyword list occur in the lowercased
title+body; entries are counted with multiplicity, and "exportación" is
the only duplicated entry, so an article whose matches reduce to a
single distinct keyword other than "exportación" always fails. -/
theorem C6_pass_iff_flattened_count (article : RawNews) :
    ((TopicRelevanceGate.check article).passed = true ↔
      MIN_KEYWORD_MATCHES ≤
        (count_keyword_matches (article.title ++ " " ++ article.content)).1) ∧
    ∀ kw, kw ≠ "exportación" →
      ((count_keyword_matches (article.title ++ " " ++
          article.content)).2).dedup = [kw] →
      (TopicRelevanceGate.check article).passed = false := by
  constructor
  · simp only [TopicRelevanceGate.check]
    split_ifs with h
    · rw [create_result_passed]
      simp only [Bool.false_eq_true, false_iff]
      omega
    · rw [create_result_passed]
      simp only [true_iff]
      omega
  · intro kw hkw hd
    have hmem_m : ∀ x ∈ (count_keyword_matches (article.title ++ " " ++
        article.content)).2, x = kw := by
      intro x hx
      have hx2 : x ∈ ((count_keyword_matches (article.title ++ " " ++
          article.content)).2).dedup := List.mem_dedup.mpr hx
      rw [hd] at hx2
      simpa using hx2
    have hkwm : kw ∈ (count_keyword_matches (article.title ++ " " ++
        article.content)).2 := by
      have hk2 : kw ∈ ((count_keyword_matches (article.title ++ " " ++
          article.content)).2).dedup := by
        rw [hd]
        simp
      exact List.mem_dedup.mp hk2
    have hkwall : kw ∈ ALL_RELEVANT_KEYWORDS := by
      simp only [count_keyword_matches] at hkwm
      exact List.mem_of_mem_filter hkwm
    have hfact : ∀ k ∈ ALL_RELEVANT_KEYWORDS, k ≠ "exportación" →
        ALL_RELEVANT_KEYWORDS.count k = 1 := by decide
    have hcount1 : ALL_RELEVANT_KEYWORDS.count kw = 1 := hfact kw hkwall hkw
    have hlen : (count_keyword_matches (article.title ++ " " ++
        article.content)).1 ≤ 1 := by
      have h1 : ((count_keyword_matches (article.title ++ " " ++
          article.content)).2).count kw =
          ((count_keyword_matches (article.title ++ " " ++
            article.content)).2).length :=
        List.count_eq_length.mpr (fun b hb => (hmem_m b hb).symm)
      have h2 : ((count_keyword_matches (article.title ++ " " ++
          article.content)).2).count kw ≤
          ALL_RELEVANT_KEYWORDS.count kw := by
        simp only [count_keyword_matches]
        exact (List.filter_sublist _).count_le _
      calc (count_keyword_matches (article.title ++ " " ++
            article.content)).1
          = ((count_keyword_matches (article.title ++ " " ++
            article.content)).2).length := rfl
        _ = ((count_keyword_matches (article.title ++ " " ++
            article.content)).2).count kw := h1.symm
        _ ≤ ALL_RELEVANT_KEYWORDS.count kw := h2
        _ = 1 := hcount1
    simp only [TopicRelevanceGate.check]
    split_ifs with h
    · rw [create_result_passed]
    · exfalso
      simp only [MIN_KEYWORD_MATCHES] at h
      omega

/-- Witness for C6 (amended) at an article matching only "gobierno". -/
theorem C6_pass_iff_flattened_count_witness :
    (TopicRelevanceGate.check c6_article_gob).passed = false :=
  (C6_pass_iff_flattened_count c6_article_gob).2 "gobierno" (by decide)
    (by decide)

-- ============================================================================
-- C1
-- ============================================================================

/-- Boolean success test for an Except value. -/
def except_ok {ε α : Type} (x : Except ε α) : Bool :=
  match x with
  | .ok _ => true
  | .error _ => false

/-- Successful step 3 with a missing direction key produces the default
NEUTRAL direction. -/
lemma execute_step_3_ok_direction_default (call : StepCall Resp3)
    (out : ImpactAnalysisOutput) (t : Nat × Nat × Nat)
    (hd : call.resp.direction = none)
    (h : execute_step_3 call = .ok (out, t)) :
    out.direction = ImpactDirection.neutral := by
  simp only [execute_step_3, hd, Option.getD_none, ImpactDirection.fromString?,
    enumOrErr] at h
  split at h
  · cases h
  · split at h
    · cases h
    · rename_i out2 heq
      simp only [Except.ok.injEq, Prod.mk.injEq] at h
      obtain ⟨ho, -⟩ := h
      subst ho
      unfold ImpactAnalysisOutput.mk? at heq
      split_ifs at heq with hm hc
      cases heq
      rfl

/-- Oracle whose step-3 response has no direction key and whose step-4
response has no score key, all other fields valid. -/
def c1_oracle : ChainOracle :=
  ⟨good_step1, good_step2,
    ⟨⟨none, some ["precio del crudo"], some 1, some "short-term",
      some "razones"⟩, 12, 22, 7⟩,
    ⟨⟨none, none, some "Justificacion con longitud suficiente para validar.",
      none⟩, 13, 23, 8⟩⟩

/-- C1 counterexample: with the stage-3 direction and the stage-4 score
both missing, the chain still returns a ProcessedNews record instead of
aborting. -/
theorem C1_counterexample :
    c1_oracle.step3.resp.direction = none ∧
      c1_oracle.step4.resp.score = none ∧
      except_ok (execute_full_chain sample_article "ctx" c1_oracle) = true := by
  exact ⟨rfl, rfl, by decide⟩

/-- C1 (amended): a missing stage-1 summary aborts the whole chain (the
empty default fails the ten-character validator), but a missing stage-3
direction is replaced by NEUTRAL and a missing stage-4 score by 3, and
the chain proceeds. -/
theorem C1_missing_field_behaviour :
    (∀ (article : RawNews) (ctx : String) (oracle : ChainOracle),
      oracle.step1.resp.summary = none →
      ∃ e, execute_full_chain article ctx oracle = .error e) ∧
    (∀ (article : RawNews) (ctx : String) (oracle : ChainOracle)
        (p : ProcessedNews),
      oracle.step3.resp.direction = none →
      execute_full_chain article ctx oracle = .ok p →
      p.impact_direction = ImpactDirection.neutral) ∧
    (∀ (article : RawNews) (ctx : String) (oracle : ChainOracle)
        (p : ProcessedNews),
      oracle.step4.resp.score = none →
      execute_full_chain article ctx oracle = .ok p →
      p.ranking_score = 3) := by
  refine ⟨?_, ?_, ?_⟩
  · intro article ctx oracle hs
    have hstep : execute_step_1 oracle.step1 =
        .error "Summary must be at least 10 characters" := by
      simp [execute_step_1, hs, SummarizationOutputMk, pyStrip]
    exact ⟨"Summary must be at least 10 characters",
      by simp only [execute_full_chain, hstep]⟩
  · intro article ctx oracle p hd hok
    obtain ⟨s1, t1, o2, t2, o3, t3, o4, t4, -, -, h3, -, hdir, -, -, -⟩ :=
      execute_full_chain_ok article ctx oracle p hok
    rw [hdir]
    exact execute_step_3_ok_direction_default oracle.step3 o3 t3 hd h3
  · intro article ctx oracle p hsc hok
    obtain ⟨s1, t1, o2, t2, o3, t3, o4, t4, -, -, -, h4, -, hscore, -, -⟩ :=
      execute_full_chain_ok article ctx oracle p hok
    obtain ⟨hs4, -, -, -⟩ := execute_step_4_ok oracle.step4 o4 t4 h4
    rw [hscore, hs4, hsc]
    rfl

/-- Witness for C1 (amended): a chain whose step-1 summary is missing
aborts; the concrete chain of the counterexample oracle yields NEUTRAL
direction and score 3. -/
theorem C1_missing_field_behaviour_witness :
    (∃ e, execute_full_chain sample_article "ctx"
      ⟨⟨⟨none, some "razones"⟩, 10, 20, 5⟩, good_step2, good_step3,
        good_step4⟩ = .error e) ∧
    (∀ p, execute_full_chain sample_article "ctx" c1_oracle = .ok p →
      p.impact_direction = ImpactDirection.neutral ∧ p.ranking_score = 3) := by
  constructor
  · exact C1_missing_field_behaviour.1 sample_article "ctx" _ rfl
  · intro p hp
    exact ⟨C1_missing_field_behaviour.2.1 sample_article "ctx" c1_oracle p rfl hp,
      C1_missing_field_behaviour.2.2 sample_article "ctx" c1_oracle p rfl hp⟩

-- ============================================================================
-- C7
-- ============================================================================

/-- Step-3 response valid in every field except the unrecognized
direction string. -/
def c7_bad : StepCall Resp3 :=
  ⟨⟨some "sideways", some ["precio del crudo"], some 1, some "short-term",
    some "razones"⟩, 12, 22, 7⟩

/-- Same step-3 response with a recognized direction. -/
def c7_good : StepCall Resp3 :=
  ⟨⟨some "POSITIVE", some ["precio del crudo"], some 1, some "short-term",
    some "razones"⟩, 12, 22, 7⟩

/-- Step-2 response whose only declared topic is unrecognized. -/
def c7_call2 : StepCall Resp2 :=
  ⟨⟨some ["bogus"], some "razones", some 1⟩, 1, 2, 3⟩

/-- C7 counterexample: an unrecognized stage-3 direction value is not
dropped: it fails the stage by itself, as the identical response with a
recognized direction succeeds. -/
theorem C7_counterexample :
    ImpactDirection.fromString? "sideways" = none ∧
      except_ok (execute_step_3 c7_bad) = false ∧
      except_ok (execute_step_3 c7_good) = true := by
  exact ⟨rfl, by decide, by decide⟩

/-- C7 (amended): stage 2 drops unrecognized topic strings and, when
none survive, substitutes the single catch-all topic and succeeds
(given an in-range confidence); stage 3, however, fails outright on an
unrecognized direction string. -/
theorem C7_enum_drop_behaviour :
    (∀ call : StepCall Resp2,
      0 ≤ call.resp.confidence.getD (1/2) →
      call.resp.confidence.getD (1/2) ≤ 1 →
      ∃ out t, execute_step_2 call = .ok (out, t) ∧
        out.topics ≠ [] ∧
        ((call.resp.topics.getD []).filterMap TopicCategory.fromString? = [] →
          out.topics = [TopicCategory.other])) ∧
    (∀ (call : StepCall Resp3) (d : String),
      call.resp.direction = some d →
      ImpactDirection.fromString? d = none →
      ∃ e, execute_step_3 call = .error e) := by
  constructor
  · intro call h0 h1
    have hne : (if (call.resp.topics.getD []).filterMap TopicCategory.fromString?
          = [] then [TopicCategory.other]
        else (call.resp.topics.getD []).filterMap TopicCategory.fromString?)
        ≠ [] := by
      split_ifs with hsplit
      · simp
      · exact hsplit
    have hmk : TopicExtractionOutput.mk?
        (if (call.resp.topics.getD []).filterMap TopicCategory.fromString? = []
          then [TopicCategory.other]
          else (call.resp.topics.getD []).filterMap TopicCategory.fromString?)
        (call.resp.reasoning.getD "")
        (call.resp.confidence.getD (1/2)) =
        .ok ⟨(if (call.resp.topics.getD []).filterMap TopicCategory.fromString?
            = [] then [TopicCategory.other]
          else (call.resp.topics.getD []).filterMap TopicCategory.fromString?),
          call.resp.reasoning.getD "", call.resp.confidence.getD (1/2)⟩ := by
      unfold TopicExtractionOutput.mk?
      rw [if_neg hne, if_neg (not_not_intro ⟨h0, h1⟩)]
    exact ⟨⟨(if (call.resp.topics.getD []).filterMap TopicCategory.fromString?
          = [] then [TopicCategory.other]
        else (call.resp.topics.getD []).filterMap TopicCategory.fromString?),
        call.resp.reasoning.getD "", call.resp.confidence.getD (1/2)⟩,
      (call.input_tokens, call.output_tokens, call.time_ms),
      by simp only [execute_step_2, hmk], hne, fun ht => by simp [ht]⟩
  · intro call d hd hnone
    refine ⟨"is not a valid ImpactDirection", ?_⟩
    simp only [execute_step_3, hd, Option.getD_some, hnone, enumOrErr]

/-- Witness for C7 (amended): a stage-2 response declaring only an
unrecognized topic succeeds with the catch-all topic, while the stage-3
response with the unrecognized direction fails. -/
theorem C7_enum_drop_behaviour_witness :
    (∃ out t, execute_step_2 c7_call2 = .ok (out, t) ∧
      out.topics = [TopicCategory.other]) ∧
      ∃ e, execute_step_3 c7_bad = .error e := by
  constructor
  · obtain ⟨out, t, hok, -, hdef⟩ :=
      C7_enum_drop_behaviour.1 c7_call2 (by decide) (by decide)
    exact ⟨out, t, hok, hdef (by decide)⟩
  · exact C7_enum_drop_behaviour.2 c7_bad "sideways" rfl rfl
